import Mathlib

/-!
Verification of the Interview Intelligence Engine's analysis and progress
tracking services, shallowly embedded from the TypeScript sources
(`src/utils/analysisEngine.ts`, `src/services/enhancedProgressService.ts`,
and the basic `ProgressTrackingService`).

Modelling conventions:
* JavaScript numbers are modelled as `ℚ` (all arithmetic in the sources is
  exact on the values that occur, so no floating-point rounding matters);
  `Math.round` is `jsRound x = ⌊x + 1/2⌋`, which matches JS round-half-up.
* JS division by zero produces `NaN`, which every use site immediately
  collapses to `0` via `|| 0` (or feeds into a branch that cannot see it);
  `ℚ` division by zero is `0`, so plain `ℚ` division models `x / y || 0`.
* Strings are modelled as `List Char`; `arr.slice(-n)` is
  `l.drop (l.length - n)` and `arr.slice(a, b)` is `(l.drop a).take (b - a)`
  (with truncated `Nat` subtraction supplying the clamping).
* `localStorage` is an `Option String` (the value stored at the service's
  key); `JSON.parse` is an explicit parameter `parse`, since the services
  only wrap it in `try`/`catch`.
-/

/-- JS `Math.round`: round half towards positive infinity. -/
def jsRound (x : ℚ) : ℤ := ⌊x + 1/2⌋

/-- JS `arr.slice(-n)` (the last `n` elements, or all of them when
`arr.length < n`). -/
def jsSliceNeg {α : Type} (n : ℕ) (l : List α) : List α :=
  l.drop (l.length - n)

/-- JS `arr.slice(a, b)` for `0 ≤ a ≤ b`. -/
def jsSlice {α : Type} (a b : ℕ) (l : List α) : List α :=
  (l.drop a).take (b - a)

/-- JS `arr.slice(-a, -b)` for `a ≥ b` (used as `scores.slice(-10, -5)`). -/
def jsSliceNeg2 {α : Type} (a b : ℕ) (l : List α) : List α :=
  (l.drop (l.length - a)).take ((l.length - b) - (l.length - a))

/-- JS `s.toLowerCase()` (ASCII; the sources only lower-case ASCII text). -/
def lowerChars (l : List Char) : List Char := l.map Char.toLower

/-- Split a character list at every character satisfying `p`.  This is JS
`s.split(re)` for a single-character-class regex; for a regex over runs such
as `/\s+/` or `/[.!?]+/` it produces the same segments interleaved with extra
empty segments, and every use site filters on (trimmed) non-emptiness or on a
property that empty segments never satisfy. -/
def splitChar (p : Char → Bool) : List Char → List (List Char)
  | [] => [[]]
  | c :: rest =>
    match splitChar p rest with
    | [] => [[]]
    | seg :: segs => if p c then [] :: seg :: segs else (c :: seg) :: segs

/-- JS `s.trim()` on a character list. -/
def trimChars (l : List Char) : List Char :=
  ((l.dropWhile Char.isWhitespace).reverse.dropWhile Char.isWhitespace).reverse

/-- JS `s.includes(sub)`: `sub` occurs as a contiguous subsequence. -/
def containsSeq (sub : List Char) : List Char → Bool
  | [] => sub.isEmpty
  | c :: rest => sub.isPrefixOf (c :: rest) || containsSeq sub rest

/-- A JS `\w` word character (ASCII letter, digit or underscore): regexes in
the sources are compiled without the `u` flag. -/
def wordChar (c : Char) : Bool := c.isAlphanum || c = '_'

/-- The maximal runs of word characters of a string.  A global regex
`/\b(w1|w2|...)\b/gi` matches exactly the maximal word-character runs that
are (case-insensitively) equal to one of the alternatives, so `\b`-delimited
word matching is membership of a run in the alternative list. -/
def wordRuns (l : List Char) : List (List Char) :=
  (splitChar (fun c => !wordChar c) l).filter (fun w => w.length > 0)

/-! ## `src/utils/analysisEngine.ts` -/

structure AnalysisMetrics where
  wordsPerMinute : ℤ
  fillerWords : ℕ
  confidenceScore : ℕ
  clarityScore : ℕ
  professionalismScore : ℕ
  relevanceScore : ℕ
deriving DecidableEq

structure AnalysisFeedback where
  strengths : List String
  improvements : List String
  suggestions : List String
deriving DecidableEq

structure AnalysisResult where
  transcript : List Char
  duration : ℚ
  metrics : AnalysisMetrics
  feedback : AnalysisFeedback
  aiPowered : Bool
deriving DecidableEq

/-- `transcript.toLowerCase().split(/\s+/).filter(word => word.length > 0)` -/
def wordsOf (t : List Char) : List (List Char) :=
  (splitChar Char.isWhitespace (lowerChars t)).filter (fun w => w.length > 0)

def fillerList : List (List Char) :=
  ["um".toList, "uh".toList, "like".toList, "you know".toList,
   "so".toList, "actually".toList, "basically".toList]

/-- `words.filter(word => fillerWords.some(filler => word.includes(filler))).length` -/
def fillerWordCount (t : List Char) : ℕ :=
  ((wordsOf t).filter (fun w => fillerList.any (fun f => containsSeq f w))).length

/-- `transcript.split(/[.!?]+/)` (see `splitChar` on the extra empty segments). -/
def sentenceSegs (t : List Char) : List (List Char) :=
  splitChar (fun c => c = '.' || c = '!' || c = '?') t

/-- `transcript.split(/[.!?]+/).filter(s => s.trim().length > 0).length` -/
def sentenceCount (t : List Char) : ℕ :=
  ((sentenceSegs t).filter (fun s => (trimChars s).length > 0)).length

/-- `words.length / Math.max(sentenceCount, 1)` -/
def avgWordsPerSentence (t : List Char) : ℚ :=
  (wordsOf t).length / (max (sentenceCount t) 1 : ℕ)

/-- `/\d/.test(transcript)` -/
def hasNumbers (t : List Char) : Bool := t.any Char.isDigit

/-- `/example|instance|case|situation|experience/i.test(transcript)` -/
def hasExamples (t : List Char) : Bool :=
  ["example", "instance", "case", "situation", "experience"].any
    (fun w => containsSeq w.toList (lowerChars t))

/-- `/achieved|accomplished|led|managed|created|improved|developed/i.test(transcript)` -/
def hasActionWords (t : List Char) : Bool :=
  ["achieved", "accomplished", "led", "managed", "created", "improved",
   "developed"].any (fun w => containsSeq w.toList (lowerChars t))

/-- `transcript.match(/\b(what|when|where|why|how|who)\b/gi)?.length || 0` -/
def questionWordCount (t : List Char) : ℕ :=
  ((wordRuns t).filter (fun w =>
    ["what", "when", "where", "why", "how", "who"].any
      (fun q => lowerChars w = q.toList))).length

/-- `transcript.split(/[.!?]+/).filter(s => s.split(',').length > 2).length` -/
def complexSentenceCount (t : List Char) : ℕ :=
  ((sentenceSegs t).filter
    (fun s => (splitChar (fun c => c = ',') s).length > 2)).length

/-- Truthiness of `transcript.match(/\b(experience|skills|project|team|challenge|solution)\b/gi)`. -/
def professionalWordTest (t : List Char) : Bool :=
  (wordRuns t).any (fun w =>
    ["experience", "skills", "project", "team", "challenge", "solution"].any
      (fun q => lowerChars w = q.toList))

/-- Truthiness of `transcript.match(/\b(awesome|cool|stuff|things)\b/gi)`. -/
def casualWordTest (t : List Char) : Bool :=
  (wordRuns t).any (fun w =>
    ["awesome", "cool", "stuff", "things"].any
      (fun q => lowerChars w = q.toList))

/-- The `confidenceScore` of `createBasicAnalysis`: every summand is a
non-negative integer, so `Math.round` is the identity and `ℕ` is exact. -/
def confidenceScoreOf (t : List Char) : ℕ :=
  min (50 + (if hasExamples t then 15 else 0)
          + (if hasActionWords t then 10 else 0)
          + (if hasNumbers t then 10 else 0)
          + (if (fillerWordCount t : ℚ) < (wordsOf t).length * (5/100) then 15 else 0)
          + (if 8 < avgWordsPerSentence t ∧ avgWordsPerSentence t < 20 then 10 else 0))
      100

def clarityScoreOf (t : List Char) : ℕ :=
  min (50 + (if sentenceCount t > 2 then 15 else 0)
          + (if 6 < avgWordsPerSentence t ∧ avgWordsPerSentence t < 25 then 20 else 0)
          + (if complexSentenceCount t > 0 then 10 else 0)
          + (if (fillerWordCount t : ℚ) < (wordsOf t).length * (8/100) then 15 else 0))
      100

def professionalismScoreOf (t : List Char) : ℕ :=
  min (60 + (if professionalWordTest t then 15 else 0)
          + (if hasActionWords t then 15 else 0)
          + (if ¬casualWordTest t then 10 else 0)
          + (if hasNumbers t then 5 else 0))
      100

def relevanceScoreOf (t : List Char) : ℕ :=
  min (50 + (if hasExamples t then 20 else 0)
          + (if hasNumbers t then 15 else 0)
          + (if hasActionWords t then 10 else 0)
          + (if (wordsOf t).length > 50 then 10 else 0)
          + (if questionWordCount t = 0 then 5 else 0))
      100

/-- `Math.max(duration / 60, 1)` -/
def durationInMinutes (duration : ℚ) : ℚ := max (duration / 60) 1

/-- `${questionType ? ` for ${questionType} questions` : ''}`-style suffix:
an absent or empty question type is falsy. -/
def qtSuffix (mid : String) (questionType : Option String) : String :=
  match questionType with
  | none => ""
  | some q => if q.length = 0 then "" else mid ++ q ++ " questions"

def createBasicAnalysis (t : List Char) (duration : ℚ)
    (questionType : Option String) : AnalysisResult :=
  { transcript := t
    duration := duration
    metrics :=
      { wordsPerMinute := jsRound ((wordsOf t).length / durationInMinutes duration)
        fillerWords := fillerWordCount t
        confidenceScore := confidenceScoreOf t
        clarityScore := clarityScoreOf t
        professionalismScore := professionalismScoreOf t
        relevanceScore := relevanceScoreOf t }
    feedback :=
      { strengths :=
          [if (wordsOf t).length > 100 then "Comprehensive response with good detail"
             else "Concise and focused response",
           if hasExamples t then "Used specific examples to support points"
             else "Clear communication style",
           if (fillerWordCount t : ℚ) < (wordsOf t).length * (5/100)
             then "Minimal use of filler words" else "Generally clear delivery",
           if 8 < avgWordsPerSentence t then "Well-structured sentences"
             else "Concise expression"]
        improvements :=
          [if ¬hasExamples t then "Include more specific examples to illustrate points"
             else "Continue providing concrete examples",
           if (fillerWordCount t : ℚ) > (wordsOf t).length * (8/100)
             then "Reduce filler words for more polished delivery"
             else "Maintain clear speaking pattern",
           if ¬hasNumbers t then "Add quantifiable results when possible"
             else "Good use of specific data",
           if (wordsOf t).length < 50 then "Provide more detailed responses"
             else "Consider organizing longer responses better"]
        suggestions :=
          ["Configure AI services (OpenAI API key) for advanced analysis and personalized feedback"
             ++ qtSuffix " for " questionType,
           "Practice the STAR method (Situation, Task, Action, Result) for structured responses",
           "Record practice sessions to track improvement over time",
           "Focus on incorporating specific metrics and achievements in your responses"] }
    aiPowered := false }

def createFallbackAnalysis (duration : ℚ) (questionType : Option String) :
    AnalysisResult :=
  { transcript :=
      "No transcript available. Please ensure your microphone is working and speech recognition is enabled.".toList
    duration := duration
    metrics :=
      { wordsPerMinute := 0, fillerWords := 0, confidenceScore := 0,
        clarityScore := 0, professionalismScore := 0, relevanceScore := 0 }
    feedback :=
      { strengths := ["Recording session completed"]
        improvements :=
          ["No audio content detected for analysis",
           "Ensure microphone permissions are granted",
           "Check if browser supports speech recognition"]
        suggestions :=
          ["Test microphone before recording",
           "Speak clearly and at normal volume",
           "Try recording in a quiet environment",
           "Configure AI services for advanced analysis" ++ qtSuffix " of " questionType] }
    aiPowered := false }

/-- `analyzeInterview`.  The AI branch is parameterised: `configured` models
`isConfigured()` and `aiOutcome` the success or failure of
`openaiClient.analyzeInterview`. -/
def analyzeInterview (configured : Bool)
    (aiOutcome : Except Unit (AnalysisMetrics × AnalysisFeedback))
    (t : List Char) (duration : ℚ) (questionType : Option String) :
    AnalysisResult :=
  if t = [] ∨ (trimChars t).length = 0 then
    createFallbackAnalysis duration questionType
  else if configured then
    match aiOutcome with
    | .ok (m, f) =>
      { transcript := t, duration := duration, metrics := m, feedback := f,
        aiPowered := true }
    | .error _ => createBasicAnalysis t duration questionType
  else createBasicAnalysis t duration questionType

/-! ## The basic `ProgressTrackingService` -/

structure SessionMetrics where
  wordsPerMinute : ℚ
  fillerWords : ℚ
  confidenceScore : ℚ
  clarityScore : ℚ
  professionalismScore : ℚ
  relevanceScore : ℚ
deriving DecidableEq

structure InterviewSession where
  id : String
  date : String
  duration : ℚ
  transcript : String
  overallScore : ℚ
  metrics : SessionMetrics
  aiPowered : Bool
  questionType : Option String
deriving DecidableEq

structure ProgressStats where
  totalSessions : ℕ
  averageScore : ℤ
  improvementTrend : ℤ
  strongestAreas : List String
  weakestAreas : List String
  recentSessions : List InterviewSession
deriving DecidableEq

namespace ProgressTrackingService

/-- `saveSession`: the caller-supplied record (with its generated `id` and
`date` already attached, since those are the only non-deterministic parts)
is pushed and the log truncated with `existingSessions.slice(-50)`. -/
def saveSession (existingSessions : List InterviewSession)
    (newSession : InterviewSession) : List InterviewSession :=
  jsSliceNeg 50 (existingSessions ++ [newSession])

/-- `getAllSessions`: `localStorage.getItem` yields `store`; `JSON.parse` is
the parameter `parse`, whose failure is the `catch` branch; an absent key or
an empty (falsy) string yields `[]`. -/
def getAllSessions (parse : String → Except String (List InterviewSession))
    (store : Option String) : List InterviewSession :=
  match store with
  | none => []
  | some data =>
    if data.length = 0 then []
    else
      match parse data with
      | .ok sessions => sessions
      | .error _ => []

/-- `sessions.reduce((sum, s) => sum + s.overallScore, 0)` -/
def sumScores (sessions : List InterviewSession) : ℚ :=
  sessions.foldl (fun sum s => sum + s.overallScore) 0

/-- `Object.entries(avgMetrics)` in insertion order. -/
def avgMetricsList (sessions : List InterviewSession) : List (String × ℚ) :=
  [("confidence",
      sessions.foldl (fun sum s => sum + s.metrics.confidenceScore) 0 / sessions.length),
   ("clarity",
      sessions.foldl (fun sum s => sum + s.metrics.clarityScore) 0 / sessions.length),
   ("professionalism",
      sessions.foldl (fun sum s => sum + s.metrics.professionalismScore) 0 / sessions.length),
   ("relevance",
      sessions.foldl (fun sum s => sum + s.metrics.relevanceScore) 0 / sessions.length)]

/-- `Object.entries(avgMetrics).sort(([,a], [,b]) => b - a)`: JS `sort` is
stable, and `a` precedes `b` exactly when `b.snd ≤ a.snd` (descending), which
is `mergeSort` with that relation. -/
def sortedAreas (sessions : List InterviewSession) : List (String × ℚ) :=
  (avgMetricsList sessions).mergeSort (fun a b => decide (b.2 ≤ a.2))

/-- `getProgressStats`, as a function of the session log it reads. -/
def getProgressStatsOf (sessions : List InterviewSession) : ProgressStats :=
  if sessions.length = 0 then
    { totalSessions := 0, averageScore := 0, improvementTrend := 0,
      strongestAreas := [], weakestAreas := [], recentSessions := [] }
  else
    { totalSessions := sessions.length
      averageScore := jsRound (sumScores sessions / sessions.length)
      improvementTrend :=
        -- halfPoint = Math.floor(length / 2); the empty-first-half division
        -- `sum / halfPoint || 0` degrades to 0 exactly as ℚ division by zero.
        jsRound (sumScores (sessions.drop (sessions.length / 2))
                    / ((sessions.length : ℚ) - (sessions.length / 2 : ℕ))
                 - sumScores (sessions.take (sessions.length / 2))
                    / (sessions.length / 2 : ℕ))
      strongestAreas := ((sortedAreas sessions).take 2).map Prod.fst
      weakestAreas := (jsSliceNeg 2 (sortedAreas sessions)).map Prod.fst
      recentSessions := (jsSliceNeg 5 sessions).reverse }

/-- `clearAllData`: `localStorage.removeItem(this.storageKey)`. -/
def clearAllData (_store : Option String) : Option String := none

end ProgressTrackingService

/-! ## `src/services/enhancedProgressService.ts` -/

structure DetailedMetrics where
  wordsPerMinute : ℚ
  fillerWords : ℚ
  confidenceScore : ℚ
  clarityScore : ℚ
  professionalismScore : ℚ
  relevanceScore : ℚ
  emotionalIntelligence : ℚ
  structureScore : ℚ
deriving DecidableEq

structure DetailedFeedback where
  strengths : List String
  improvements : List String
  suggestions : List String
  specificTips : List String
deriving DecidableEq

structure DetailedAnalysisText where
  speechPattern : String
  contentQuality : String
  professionalPresence : String
  improvementPlan : List String
deriving DecidableEq

structure DetailedSession where
  id : String
  date : String
  duration : ℚ
  transcript : String
  questionType : String
  overallScore : ℚ
  detailedMetrics : DetailedMetrics
  feedback : DetailedFeedback
  detailedAnalysis : DetailedAnalysisText
  aiPowered : Bool
  audioUrl : Option String
deriving DecidableEq

structure SkillStat where
  current : ℤ
  trend : ℤ
  sessionHistory : List ℚ
deriving DecidableEq

structure Milestones where
  reached : List String
  upcoming : List String
deriving DecidableEq

structure AdvancedProgressStats where
  totalSessions : ℕ
  averageScore : ℤ
  improvementTrend : ℤ
  skillBreakdown : List (String × SkillStat)
  recommendedFocus : List String
  achievementBadges : List String
  recentSessions : List DetailedSession
  sessionsByType : List (String × ℕ)
  progressMilestones : Milestones
deriving DecidableEq

namespace EnhancedProgressService

def maxSessions : ℕ := 100

/-- `saveDetailedSession`: push, then `existingSessions.slice(-this.maxSessions)`. -/
def saveDetailedSession (existingSessions : List DetailedSession)
    (newSession : DetailedSession) : List DetailedSession :=
  jsSliceNeg maxSessions (existingSessions ++ [newSession])

/-- `getAllSessions` of the enhanced service (same `try`/`catch` shape as the
basic one). -/
def getAllSessions (parse : String → Except String (List DetailedSession))
    (store : Option String) : List DetailedSession :=
  match store with
  | none => []
  | some data =>
    if data.length = 0 then []
    else
      match parse data with
      | .ok sessions => sessions
      | .error _ => []

/-- `sessions.reduce((acc, session) => acc + session.overallScore, 0)` -/
def sumOverall (sessions : List DetailedSession) : ℚ :=
  sessions.foldl (fun acc s => acc + s.overallScore) 0

/-- `calculateAverageScore`: `Math.round(sum / sessions.length)`. -/
def calculateAverageScore (sessions : List DetailedSession) : ℤ :=
  jsRound (sumOverall sessions / sessions.length)

/-- `calculateImprovementTrend` (quarterPoint inlined):
`recentSessions = sessions.slice(-quarterPoint)`,
`earlierSessions = sessions.slice(quarterPoint, quarterPoint * 2)`. -/
def calculateImprovementTrend (sessions : List DetailedSession) : ℤ :=
  if sessions.length < 4 then 0
  else
    jsRound
      ((calculateAverageScore (jsSliceNeg (sessions.length / 4) sessions) : ℚ)
       - calculateAverageScore
           (jsSlice (sessions.length / 4) (sessions.length / 4 * 2) sessions))

def skillKeys : List String :=
  ["confidenceScore", "clarityScore", "professionalismScore",
   "relevanceScore", "emotionalIntelligence", "structureScore"]

/-- `s.detailedMetrics[skill as keyof typeof s.detailedMetrics] || 0` (the
`|| 0` maps a falsy `0` to `0`, so it is the identity on every field). -/
def metricOf (s : DetailedSession) (k : String) : ℚ :=
  if k = "confidenceScore" then s.detailedMetrics.confidenceScore
  else if k = "clarityScore" then s.detailedMetrics.clarityScore
  else if k = "professionalismScore" then s.detailedMetrics.professionalismScore
  else if k = "relevanceScore" then s.detailedMetrics.relevanceScore
  else if k = "emotionalIntelligence" then s.detailedMetrics.emotionalIntelligence
  else if k = "structureScore" then s.detailedMetrics.structureScore
  else 0

/-- One entry of `calculateSkillBreakdown`: `current` is the last score (or 0),
the trend compares `scores.slice(-5)` with `scores.slice(-10, -5)`, and the
`|| 0` on each average is ℚ division by zero. -/
def skillEntry (sessions : List DetailedSession) (k : String) : SkillStat :=
  { current := jsRound ((sessions.map (fun s => metricOf s k)).getLastD 0)
    trend :=
      jsRound
        ((jsSliceNeg 5 (sessions.map (fun s => metricOf s k))).foldl (· + ·) 0
            / (jsSliceNeg 5 (sessions.map (fun s => metricOf s k))).length
         - (jsSliceNeg2 10 5 (sessions.map (fun s => metricOf s k))).foldl (· + ·) 0
            / (jsSliceNeg2 10 5 (sessions.map (fun s => metricOf s k))).length)
    sessionHistory := jsSliceNeg 10 (sessions.map (fun s => metricOf s k)) }

/-- `calculateSkillBreakdown`: an object with the six skill keys in insertion
order, modelled as an association list. -/
def calculateSkillBreakdown (sessions : List DetailedSession) :
    List (String × SkillStat) :=
  skillKeys.map (fun k => (k, skillEntry sessions k))

def formatSkillName (skill : String) : String :=
  if skill = "confidenceScore" then "Confidence"
  else if skill = "clarityScore" then "Clarity"
  else if skill = "professionalismScore" then "Professionalism"
  else if skill = "relevanceScore" then "Relevance"
  else if skill = "emotionalIntelligence" then "Emotional Intelligence"
  else if skill = "structureScore" then "Response Structure"
  else skill

/-- `getRecommendedFocus`: stable ascending sort by `current`, first two,
formatted. -/
def getRecommendedFocus (skillBreakdown : List (String × SkillStat)) :
    List String :=
  ((skillBreakdown.mergeSort
      (fun a b => decide (a.2.current ≤ b.2.current))).take 2).map
    (fun p => formatSkillName p.1)

/-- `calculateAchievements`, with the badge conditions exactly as written in
the source (including `s.overallScore > s.overallScore` on the last rule but
one). -/
def calculateAchievements (sessions : List DetailedSession) : List String :=
  (if sessions.length ≥ 5 then ["Committed Practicer"] else [])
  ++ (if sessions.length ≥ 15 then ["Interview Master"] else [])
  ++ (if sessions.any (fun s => decide (s.overallScore ≥ 90)) then
        ["Excellence Achieved"] else [])
  ++ (if (jsSliceNeg 5 sessions).all
          (fun s => decide (s.overallScore > s.overallScore)) then
        ["Consistent Improver"] else [])
  ++ (if (sessions.filter (fun s => s.aiPowered)).length ≥ 10 then
        ["AI-Powered Learner"] else [])

/-- `types[type] = (types[type] || 0) + 1` over a JS object, which keeps keys
in first-insertion order. -/
def bumpType (types : List (String × ℕ)) (k : String) : List (String × ℕ) :=
  if types.any (fun p => p.1 = k) then
    types.map (fun p => if p.1 = k then (p.1, p.2 + 1) else p)
  else types ++ [(k, 1)]

/-- `getSessionsByType` (`session.questionType || 'General'`: the empty string
is falsy). -/
def getSessionsByType (sessions : List DetailedSession) : List (String × ℕ) :=
  sessions.foldl
    (fun types s =>
      bumpType types (if s.questionType.length = 0 then "General" else s.questionType))
    []

/-- `getProgressMilestones`. -/
def getProgressMilestones (sessions : List DetailedSession) : Milestones :=
  { reached :=
      (if sessions.length ≥ 1 then ["First Interview Practice"] else [])
      ++ (if sessions.length ≥ 5 then ["Regular Practicer"] else [])
      ++ (if sessions.length ≥ 10 then ["Dedicated Learner"] else [])
      ++ (if calculateAverageScore sessions ≥ 70 then ["Competent Interviewer"] else [])
      ++ (if calculateAverageScore sessions ≥ 80 then ["Strong Interviewer"] else [])
      ++ (if calculateAverageScore sessions ≥ 90 then ["Expert Interviewer"] else [])
    upcoming :=
      (if sessions.length < 5 then
        ["Complete " ++ toString (5 - sessions.length) ++ " more sessions"] else [])
      ++ (if sessions.length < 10 then ["Reach 10 total sessions"] else [])
      ++ (if calculateAverageScore sessions < 70 then ["Achieve 70% average score"] else [])
      ++ (if calculateAverageScore sessions < 80 then ["Achieve 80% average score"] else [])
      ++ (if calculateAverageScore sessions < 90 then ["Achieve 90% average score"] else []) }

def getEmptyStats : AdvancedProgressStats :=
  { totalSessions := 0, averageScore := 0, improvementTrend := 0,
    skillBreakdown := [], recommendedFocus := [], achievementBadges := [],
    recentSessions := [], sessionsByType := [],
    progressMilestones :=
      { reached := [], upcoming := ["Complete your first interview practice"] } }

/-- `getAdvancedStats`, as a function of the session log it reads. -/
def getAdvancedStatsOf (sessions : List DetailedSession) : AdvancedProgressStats :=
  if sessions.length = 0 then getEmptyStats
  else
    { totalSessions := sessions.length
      averageScore := calculateAverageScore sessions
      improvementTrend := calculateImprovementTrend sessions
      skillBreakdown := calculateSkillBreakdown sessions
      recommendedFocus := getRecommendedFocus (calculateSkillBreakdown sessions)
      achievementBadges := calculateAchievements sessions
      recentSessions := (jsSliceNeg 10 sessions).reverse
      sessionsByType := getSessionsByType sessions
      progressMilestones := getProgressMilestones sessions }

/-- `clearAllData`: `localStorage.removeItem(this.storageKey)`. -/
def clearAllData (_store : Option String) : Option String := none

end EnhancedProgressService

/-! ## Shared lemmas -/

theorem length_jsSliceNeg {α : Type} (n : ℕ) (l : List α) :
    (jsSliceNeg n l).length = min l.length n := by
  simp [jsSliceNeg]
  omega

theorem jsSliceNeg_of_length_le {α : Type} {n : ℕ} {l : List α}
    (h : l.length ≤ n) : jsSliceNeg n l = l := by
  simp [jsSliceNeg, Nat.sub_eq_zero_of_le h]

theorem jsSliceNeg_append_absorb {α : Type} (n : ℕ) (x y : List α) :
    jsSliceNeg n (jsSliceNeg n x ++ y) = jsSliceNeg n (x ++ y) := by
  rcases le_or_lt x.length n with hx | hx
  · rw [jsSliceNeg_of_length_le hx]
  · unfold jsSliceNeg
    rw [List.drop_append_eq_append_drop, List.drop_append_eq_append_drop,
      List.drop_drop]
    simp only [List.length_append, List.length_drop]
    congr 2 <;> omega

theorem foldl_jsSliceNeg_append {α : Type} (cap : ℕ) (rs l : List α)
    (h : l.length ≤ cap) :
    List.foldl (fun acc s => jsSliceNeg cap (acc ++ [s])) l rs
      = jsSliceNeg cap (l ++ rs) := by
  induction rs generalizing l with
  | nil => rw [List.foldl_nil, List.append_nil, jsSliceNeg_of_length_le h]
  | cons r rs ih =>
    rw [List.foldl_cons,
      ih _ (by rw [length_jsSliceNeg]; omega),
      jsSliceNeg_append_absorb, ← List.append_cons]

theorem jsRound_intCast_sub (a b : ℤ) : jsRound ((a : ℚ) - (b : ℚ)) = a - b := by
  have h : ((a : ℚ) - b) = ((a - b : ℤ) : ℚ) := by push_cast; ring
  rw [jsRound, h, add_comm, Int.floor_add_int]
  norm_num

theorem mem_ite_singleton {c : Prop} [Decidable c] {x a : String}
    (h : a ∈ (if c then [x] else [])) : a = x := by
  split at h
  · simpa using h
  · simp at h

/-! ## Claims -/

/-- Claim C1: for every transcript and duration, each of the four scores
returned by the fallback analysis (`createBasicAnalysis`, and
`createFallbackAnalysis` for empty transcripts) lies in `[0, 100]`. -/
theorem c1_fallback_scores_within_range :
    ∀ (t : List Char) (d : ℚ) (qt : Option String),
      (0 ≤ (createBasicAnalysis t d qt).metrics.confidenceScore
          ∧ (createBasicAnalysis t d qt).metrics.confidenceScore ≤ 100)
      ∧ (0 ≤ (createBasicAnalysis t d qt).metrics.clarityScore
          ∧ (createBasicAnalysis t d qt).metrics.clarityScore ≤ 100)
      ∧ (0 ≤ (createBasicAnalysis t d qt).metrics.professionalismScore
          ∧ (createBasicAnalysis t d qt).metrics.professionalismScore ≤ 100)
      ∧ (0 ≤ (createBasicAnalysis t d qt).metrics.relevanceScore
          ∧ (createBasicAnalysis t d qt).metrics.relevanceScore ≤ 100)
      ∧ (0 ≤ (createFallbackAnalysis d qt).metrics.confidenceScore
          ∧ (createFallbackAnalysis d qt).metrics.confidenceScore ≤ 100)
      ∧ (0 ≤ (createFallbackAnalysis d qt).metrics.clarityScore
          ∧ (createFallbackAnalysis d qt).metrics.clarityScore ≤ 100)
      ∧ (0 ≤ (createFallbackAnalysis d qt).metrics.professionalismScore
          ∧ (createFallbackAnalysis d qt).metrics.professionalismScore ≤ 100)
      ∧ (0 ≤ (createFallbackAnalysis d qt).metrics.relevanceScore
          ∧ (createFallbackAnalysis d qt).metrics.relevanceScore ≤ 100) := by
  intro t d qt
  exact ⟨⟨Nat.zero_le _, Nat.min_le_right _ _⟩,
         ⟨Nat.zero_le _, Nat.min_le_right _ _⟩,
         ⟨Nat.zero_le _, Nat.min_le_right _ _⟩,
         ⟨Nat.zero_le _, Nat.min_le_right _ _⟩,
         ⟨Nat.zero_le _, show (0:ℕ) ≤ 100 by norm_num⟩,
         ⟨Nat.zero_le _, show (0:ℕ) ≤ 100 by norm_num⟩,
         ⟨Nat.zero_le _, show (0:ℕ) ≤ 100 by norm_num⟩,
         ⟨Nat.zero_le _, show (0:ℕ) ≤ 100 by norm_num⟩⟩

/-- Claim C4: an empty or whitespace-only transcript yields, independently of
the AI configuration and outcome, the fixed no-content result: all numeric
metrics `0`, `aiPowered = false`, the single strength
`"Recording session completed"`, and the fixed no-audio-detected improvement
and check-microphone suggestion lists. -/
theorem c4_blank_transcript_fixed_result (configured : Bool)
    (aiOutcome : Except Unit (AnalysisMetrics × AnalysisFeedback))
    (t : List Char) (d : ℚ) (qt : Option String)
    (h : (trimChars t).length = 0) :
    (analyzeInterview configured aiOutcome t d qt).metrics.wordsPerMinute = 0
    ∧ (analyzeInterview configured aiOutcome t d qt).metrics.fillerWords = 0
    ∧ (analyzeInterview configured aiOutcome t d qt).metrics.confidenceScore = 0
    ∧ (analyzeInterview configured aiOutcome t d qt).metrics.clarityScore = 0
    ∧ (analyzeInterview configured aiOutcome t d qt).metrics.professionalismScore = 0
    ∧ (analyzeInterview configured aiOutcome t d qt).metrics.relevanceScore = 0
    ∧ (analyzeInterview configured aiOutcome t d qt).aiPowered = false
    ∧ (analyzeInterview configured aiOutcome t d qt).feedback.strengths
        = ["Recording session completed"]
    ∧ (analyzeInterview configured aiOutcome t d qt).feedback.improvements
        = ["No audio content detected for analysis",
           "Ensure microphone permissions are granted",
           "Check if browser supports speech recognition"]
    ∧ (analyzeInterview configured aiOutcome t d qt).feedback.suggestions
        = ["Test microphone before recording",
           "Speak clearly and at normal volume",
           "Try recording in a quiet environment",
           "Configure AI services for advanced analysis" ++ qtSuffix " of " qt] := by
  have hr : analyzeInterview configured aiOutcome t d qt
      = createFallbackAnalysis d qt := by
    rw [analyzeInterview.eq_def, if_pos (Or.inr h)]
  rw [hr]
  exact ⟨rfl, rfl, rfl, rfl, rfl, rfl, rfl, rfl, rfl, rfl⟩

/-- Witness for C4 at the whitespace-only transcript `"   "` with the AI
configured and failing, duration 5 and no question type. -/
theorem c4_blank_transcript_witness :
    (trimChars "   ".toList).length = 0
    ∧ ((analyzeInterview true (Except.error ()) "   ".toList 5 none).metrics.wordsPerMinute = 0
       ∧ (analyzeInterview true (Except.error ()) "   ".toList 5 none).metrics.fillerWords = 0
       ∧ (analyzeInterview true (Except.error ()) "   ".toList 5 none).metrics.confidenceScore = 0
       ∧ (analyzeInterview true (Except.error ()) "   ".toList 5 none).metrics.clarityScore = 0
       ∧ (analyzeInterview true (Except.error ()) "   ".toList 5 none).metrics.professionalismScore = 0
       ∧ (analyzeInterview true (Except.error ()) "   ".toList 5 none).metrics.relevanceScore = 0
       ∧ (analyzeInterview true (Except.error ()) "   ".toList 5 none).aiPowered = false
       ∧ (analyzeInterview true (Except.error ()) "   ".toList 5 none).feedback.strengths
           = ["Recording session completed"]
       ∧ (analyzeInterview true (Except.error ()) "   ".toList 5 none).feedback.improvements
           = ["No audio content detected for analysis",
              "Ensure microphone permissions are granted",
              "Check if browser supports speech recognition"]
       ∧ (analyzeInterview true (Except.error ()) "   ".toList 5 none).feedback.suggestions
           = ["Test microphone before recording",
              "Speak clearly and at normal volume",
              "Try recording in a quiet environment",
              "Configure AI services for advanced analysis" ++ qtSuffix " of " none]) :=
  ⟨by decide, c4_blank_transcript_fixed_result true (Except.error ()) "   ".toList 5 none (by decide)⟩

/-- Claim C7: clearing the store makes `getAllSessions` empty, and both
stats operations on an empty log return zero counts, zero averages, zero
trend and empty list/map fields, except the enhanced tracker's upcoming
milestone prompt for the first session. -/
theorem c7_clear_and_empty_stats :
    ∀ (parseB : String → Except String (List InterviewSession))
      (parseE : String → Except String (List DetailedSession))
      (store : Option String),
      ProgressTrackingService.getAllSessions parseB
          (ProgressTrackingService.clearAllData store) = []
      ∧ EnhancedProgressService.getAllSessions parseE
          (EnhancedProgressService.clearAllData store) = []
      ∧ ProgressTrackingService.getProgressStatsOf []
          = { totalSessions := 0, averageScore := 0, improvementTrend := 0,
              strongestAreas := [], weakestAreas := [], recentSessions := [] }
      ∧ (EnhancedProgressService.getAdvancedStatsOf []).totalSessions = 0
      ∧ (EnhancedProgressService.getAdvancedStatsOf []).averageScore = 0
      ∧ (EnhancedProgressService.getAdvancedStatsOf []).improvementTrend = 0
      ∧ (EnhancedProgressService.getAdvancedStatsOf []).skillBreakdown = []
      ∧ (EnhancedProgressService.getAdvancedStatsOf []).recommendedFocus = []
      ∧ (EnhancedProgressService.getAdvancedStatsOf []).achievementBadges = []
      ∧ (EnhancedProgressService.getAdvancedStatsOf []).recentSessions = []
      ∧ (EnhancedProgressService.getAdvancedStatsOf []).sessionsByType = []
      ∧ (EnhancedProgressService.getAdvancedStatsOf []).progressMilestones.reached = []
      ∧ (EnhancedProgressService.getAdvancedStatsOf []).progressMilestones.upcoming
          = ["Complete your first interview practice"] := by
  intro parseB parseE store
  exact ⟨rfl, rfl, rfl, rfl, rfl, rfl, rfl, rfl, rfl, rfl, rfl, rfl, rfl⟩

/-- Claim C10: with exactly one record, the basic tracker's improvement trend
is the (rounded) score of that record: the half-split point is 0, the empty
first half's average degrades to 0, and the second half is the whole log. -/
theorem c10_single_session_trend (s : InterviewSession) :
    (ProgressTrackingService.getProgressStatsOf [s]).improvementTrend
      = jsRound s.overallScore := by
  show jsRound (ProgressTrackingService.sumScores ([s].drop (([s] : List _).length / 2))
      / ((([s] : List _).length : ℚ) - (([s] : List _).length / 2 : ℕ))
    - ProgressTrackingService.sumScores ([s].take (([s] : List _).length / 2))
      / ((([s] : List _).length / 2 : ℕ) : ℚ)) = jsRound s.overallScore
  simp [ProgressTrackingService.sumScores]

/-- A detailed session with a given overall score (all other fields inert). -/
def mkDetailed (score : ℚ) : DetailedSession :=
  ⟨"", "", 0, "", "", score, ⟨0, 0, 0, 0, 0, 0, 0, 0⟩, ⟨[], [], [], []⟩,
   ⟨"", "", "", []⟩, false, none⟩

/-- A five-session log with strictly improving scores. -/
def c2Log : List DetailedSession :=
  [mkDetailed 10, mkDetailed 20, mkDetailed 30, mkDetailed 40, mkDetailed 50]

/-- Counterexample to claim C2: a log of 5 sessions (even strictly improving
ones) does not receive the "Consistent Improver" badge, so the badge rule is
not vacuously true once 5+ sessions exist. -/
theorem c2_badge_missing_on_improving_log :
    c2Log.length ≥ 5
    ∧ "Consistent Improver" ∉ EnhancedProgressService.calculateAchievements c2Log := by
  decide

/-- Claim C2 (amended): the badge rule compares each of the last five
records' `overallScore` against itself with a strict `>`, which never holds,
so the "Consistent Improver" badge is never awarded on any non-empty session
log (in particular never on logs with 5 or more records). -/
theorem c2_consistent_improver_never_awarded (sessions : List DetailedSession)
    (h : sessions ≠ []) :
    "Consistent Improver" ∉ EnhancedProgressService.calculateAchievements sessions := by
  have hne : jsSliceNeg 5 sessions ≠ [] := by
    have : (jsSliceNeg 5 sessions).length = min sessions.length 5 :=
      length_jsSliceNeg 5 sessions
    intro hnil
    rw [hnil] at this
    have hpos : 0 < sessions.length := List.length_pos.mpr h
    simp at this
    omega
  have hall : (jsSliceNeg 5 sessions).all
      (fun s => decide (s.overallScore > s.overallScore)) = false := by
    cases hslice : jsSliceNeg 5 sessions with
    | nil => exact absurd hslice hne
    | cons a as => simp [List.all_cons, lt_irrefl]
  intro hmem
  rw [EnhancedProgressService.calculateAchievements] at hmem
  rcases List.mem_append.mp hmem with hmem4 | h5
  rcases List.mem_append.mp hmem4 with hmem3 | h4
  rcases List.mem_append.mp hmem3 with hmem2 | h3
  rcases List.mem_append.mp hmem2 with h1 | h2
  · exact absurd (mem_ite_singleton h1) (by decide)
  · exact absurd (mem_ite_singleton h2) (by decide)
  · exact absurd (mem_ite_singleton h3) (by decide)
  · rw [hall] at h4
    simp at h4
  · exact absurd (mem_ite_singleton h5) (by decide)

/-- Witness for the amended C2 at a concrete non-empty log. -/
theorem c2_never_awarded_witness :
    c2Log ≠ []
    ∧ "Consistent Improver" ∉ EnhancedProgressService.calculateAchievements c2Log :=
  ⟨by decide, c2_consistent_improver_never_awarded c2Log (by decide)⟩

/-- Claim C5: both trackers' logs are bounded (50 basic, 100 enhanced), the
log after any number of appends from empty has length `min N cap`, and
eviction is FIFO: the log is always exactly the last `cap` appended records
in insertion order (so appending `cap+1` records leaves records `2..cap+1`). -/
theorem c5_log_bounded_fifo :
    (∀ (l : List InterviewSession) (s : InterviewSession),
        (ProgressTrackingService.saveSession l s).length ≤ 50)
    ∧ (∀ rs : List InterviewSession,
        (List.foldl ProgressTrackingService.saveSession [] rs).length
          = min rs.length 50)
    ∧ (∀ rs : List InterviewSession,
        List.foldl ProgressTrackingService.saveSession [] rs
          = rs.drop (rs.length - 50))
    ∧ (∀ (l : List DetailedSession) (s : DetailedSession),
        (EnhancedProgressService.saveDetailedSession l s).length ≤ 100)
    ∧ (∀ rs : List DetailedSession,
        (List.foldl EnhancedProgressService.saveDetailedSession [] rs).length
          = min rs.length 100)
    ∧ (∀ rs : List DetailedSession,
        List.foldl EnhancedProgressService.saveDetailedSession [] rs
          = rs.drop (rs.length - 100)) := by
  have hb : ∀ rs : List InterviewSession,
      List.foldl ProgressTrackingService.saveSession [] rs
        = rs.drop (rs.length - 50) := by
    intro rs
    show List.foldl (fun acc s => jsSliceNeg 50 (acc ++ [s])) [] rs
      = rs.drop (rs.length - 50)
    rw [foldl_jsSliceNeg_append 50 rs [] (by simp), List.nil_append, jsSliceNeg]
  have he : ∀ rs : List DetailedSession,
      List.foldl EnhancedProgressService.saveDetailedSession [] rs
        = rs.drop (rs.length - 100) := by
    intro rs
    show List.foldl (fun acc s => jsSliceNeg 100 (acc ++ [s])) [] rs
      = rs.drop (rs.length - 100)
    rw [foldl_jsSliceNeg_append 100 rs [] (by simp), List.nil_append, jsSliceNeg]
  refine ⟨?_, ?_, hb, ?_, ?_, he⟩
  · intro l s
    have := length_jsSliceNeg 50 (l ++ [s])
    rw [ProgressTrackingService.saveSession, this]
    omega
  · intro rs
    rw [hb rs, List.length_drop]
    omega
  · intro l s
    show (jsSliceNeg 100 (l ++ [s])).length ≤ 100
    rw [length_jsSliceNeg]
    omega
  · intro rs
    rw [he rs, List.length_drop]
    omega

/-- Claim C6: for an absent store key, or a stored value the JSON parser
rejects, both trackers' `getAllSessions` return the empty list (the failure
is swallowed, never raised). -/
theorem c6_unreadable_store_empty :
    ∀ (parseB : String → Except String (List InterviewSession))
      (parseE : String → Except String (List DetailedSession))
      (s eB eE : String),
      ProgressTrackingService.getAllSessions parseB none = []
      ∧ EnhancedProgressService.getAllSessions parseE none = []
      ∧ (parseB s = Except.error eB →
          ProgressTrackingService.getAllSessions parseB (some s) = [])
      ∧ (parseE s = Except.error eE →
          EnhancedProgressService.getAllSessions parseE (some s) = []) := by
  intro parseB parseE s eB eE
  refine ⟨rfl, rfl, ?_, ?_⟩
  · intro hp
    rw [ProgressTrackingService.getAllSessions.eq_def]
    simp only [hp]
    split <;> rfl
  · intro hp
    rw [EnhancedProgressService.getAllSessions.eq_def]
    simp only [hp]
    split <;> rfl

/-- Witness for C6: a parser that always fails, on a concrete stored value
and on an absent key. -/
theorem c6_unreadable_store_witness :
    ProgressTrackingService.getAllSessions (fun _ => Except.error "bad") none = []
    ∧ EnhancedProgressService.getAllSessions (fun _ => Except.error "bad") none = []
    ∧ ProgressTrackingService.getAllSessions (fun _ => Except.error "bad") (some "x") = []
    ∧ EnhancedProgressService.getAllSessions (fun _ => Except.error "bad") (some "x") = [] := by
  have h := c6_unreadable_store_empty (fun _ => Except.error "bad")
    (fun _ => Except.error "bad") "x" "bad" "bad"
  exact ⟨h.1, h.2.1, h.2.2.1 rfl, h.2.2.2 rfl⟩

/-- The improvement trend exactly as claim C3 words it: mean of the most
recent quarter minus mean of the `floor(n/4)` records directly preceding
those, rounded (this definition follows the claim, not the source, and is
compared against `calculateImprovementTrend`). -/
def claimedImprovementTrend (sessions : List DetailedSession) : ℤ :=
  if sessions.length < 4 then 0
  else
    jsRound
      (EnhancedProgressService.sumOverall (jsSliceNeg (sessions.length / 4) sessions)
          / ((sessions.length / 4 : ℕ) : ℚ)
       - EnhancedProgressService.sumOverall
           ((sessions.drop (sessions.length - 2 * (sessions.length / 4))).take
             (sessions.length / 4))
          / ((sessions.length / 4 : ℕ) : ℚ))

/-- A four-session log separating the two "earlier quarter" readings. -/
def c3Log : List DetailedSession :=
  [mkDetailed 0, mkDetailed 10, mkDetailed 20, mkDetailed 40]

/-- Counterexample to claim C3: on scores `[0, 10, 20, 40]` the code compares
the last record (40) against the second record (10), giving trend 30, while
the claim's "quarter immediately before the most recent quarter" (the third
record, 20) would give 20. -/
theorem c3_trend_not_preceding_quarter :
    EnhancedProgressService.calculateImprovementTrend c3Log = 30
    ∧ claimedImprovementTrend c3Log = 20
    ∧ EnhancedProgressService.calculateImprovementTrend c3Log
        ≠ claimedImprovementTrend c3Log := by
  have h1 : EnhancedProgressService.calculateImprovementTrend c3Log = 30 := by
    rw [EnhancedProgressService.calculateImprovementTrend]
    norm_num [c3Log, jsSliceNeg, jsSlice, EnhancedProgressService.calculateAverageScore,
      EnhancedProgressService.sumOverall, jsRound, mkDetailed, Int.floor_eq_iff]
  have h2 : claimedImprovementTrend c3Log = 20 := by
    rw [claimedImprovementTrend]
    norm_num [c3Log, jsSliceNeg, EnhancedProgressService.sumOverall, jsRound,
      mkDetailed, Int.floor_eq_iff]
  exact ⟨h1, h2, by rw [h1, h2]; decide⟩

/-- Claim C3 (amended): for logs of length `n ≥ 4` the enhanced improvement
trend is the rounded mean of the last `floor(n/4)` records minus the rounded
mean of the second quarter-block counted from the start (records at indices
`floor(n/4) .. 2*floor(n/4) - 1`), each mean rounded before subtracting; for
fewer than 4 sessions it is 0. -/
theorem c3_trend_amended (sessions : List DetailedSession) :
    (sessions.length < 4 →
      EnhancedProgressService.calculateImprovementTrend sessions = 0)
    ∧ (4 ≤ sessions.length →
      EnhancedProgressService.calculateImprovementTrend sessions
        = jsRound (EnhancedProgressService.sumOverall
              (sessions.drop (sessions.length - sessions.length / 4))
            / ((sessions.length / 4 : ℕ) : ℚ))
          - jsRound (EnhancedProgressService.sumOverall
              ((sessions.drop (sessions.length / 4)).take (sessions.length / 4))
            / ((sessions.length / 4 : ℕ) : ℚ))) := by
  constructor
  · intro h
    rw [EnhancedProgressService.calculateImprovementTrend, if_pos h]
  · intro h
    rw [EnhancedProgressService.calculateImprovementTrend,
      if_neg (not_lt.mpr h)]
    have h1 : (jsSliceNeg (sessions.length / 4) sessions).length
        = sessions.length / 4 := by
      rw [length_jsSliceNeg]; omega
    have h2 : (jsSlice (sessions.length / 4) (sessions.length / 4 * 2) sessions).length
        = sessions.length / 4 := by
      simp [jsSlice]; omega
    rw [EnhancedProgressService.calculateAverageScore,
      EnhancedProgressService.calculateAverageScore, h1, h2]
    have h3 : jsSlice (sessions.length / 4) (sessions.length / 4 * 2) sessions
        = (sessions.drop (sessions.length / 4)).take (sessions.length / 4) := by
      rw [jsSlice]
      congr 1
      omega
    rw [h3, jsSliceNeg, jsRound_intCast_sub]

/-- Witness for the amended C3 on a concrete short log and on `c3Log`. -/
theorem c3_trend_amended_witness :
    ([mkDetailed 5].length < 4
      ∧ EnhancedProgressService.calculateImprovementTrend [mkDetailed 5] = 0)
    ∧ (4 ≤ c3Log.length
      ∧ EnhancedProgressService.calculateImprovementTrend c3Log
          = jsRound (EnhancedProgressService.sumOverall
                (c3Log.drop (c3Log.length - c3Log.length / 4))
              / ((c3Log.length / 4 : ℕ) : ℚ))
            - jsRound (EnhancedProgressService.sumOverall
                ((c3Log.drop (c3Log.length / 4)).take (c3Log.length / 4))
              / ((c3Log.length / 4 : ℕ) : ℚ))) :=
  ⟨⟨by decide, (c3_trend_amended [mkDetailed 5]).1 (by decide)⟩,
   ⟨by decide, (c3_trend_amended c3Log).2 (by decide)⟩⟩

/-- The literal transcript of claim C8. -/
def c8Transcript : List Char :=
  "I led a team and achieved a 20% improvement, for example on project X.".toList

/-- Claim C8: on the literal example transcript with duration 60s the basic
analysis finds 14 words, 14 words per minute, no filler words, examples,
action words and numbers all detected, a confidence score of 100 (base 50
plus bonuses 15+10+10+15+10, clamped) and a relevance score of 100
(50+20+15+10+5, with no word-count bonus since 14 ≤ 50). -/
theorem c8_literal_transcript_evaluation :
    (wordsOf c8Transcript).length = 14
    ∧ (createBasicAnalysis c8Transcript 60 none).metrics.wordsPerMinute = 14
    ∧ (createBasicAnalysis c8Transcript 60 none).metrics.fillerWords = 0
    ∧ hasExamples c8Transcript = true
    ∧ hasActionWords c8Transcript = true
    ∧ hasNumbers c8Transcript = true
    ∧ (createBasicAnalysis c8Transcript 60 none).metrics.confidenceScore = 100
    ∧ (createBasicAnalysis c8Transcript 60 none).metrics.relevanceScore = 100 := by
  have hw : (wordsOf c8Transcript).length = 14 := by decide
  have hf : fillerWordCount c8Transcript = 0 := by decide
  have hs : sentenceCount c8Transcript = 1 := by decide
  have hq : questionWordCount c8Transcript = 0 := by decide
  have hex : hasExamples c8Transcript = true := by decide
  have hac : hasActionWords c8Transcript = true := by decide
  have hnum : hasNumbers c8Transcript = true := by decide
  have havg : avgWordsPerSentence c8Transcript = 14 := by
    rw [avgWordsPerSentence, hw, hs]
    norm_num
  have hwpm : (createBasicAnalysis c8Transcript 60 none).metrics.wordsPerMinute = 14 := by
    show jsRound (((wordsOf c8Transcript).length : ℚ) / durationInMinutes 60) = 14
    rw [hw, durationInMinutes]
    norm_num [jsRound, Int.floor_eq_iff]
  have hconf : confidenceScoreOf c8Transcript = 100 := by
    rw [confidenceScoreOf, hex, hac, hnum, hf, hw, havg]
    norm_num
  have hrel : relevanceScoreOf c8Transcript = 100 := by
    rw [relevanceScoreOf, hex, hnum, hac, hw, hq]
    norm_num
  exact ⟨hw, hwpm, hf, hex, hac, hnum, hconf, hrel⟩

/-- Claim C9: for a non-empty log, the basic tracker returns exactly two
strongest and two weakest area names, drawn from the four sub-metric names,
with no overlap, and the strongest pair dominates the weakest pair in the
descending sort of per-metric averages. -/
theorem c9_area_selection (sessions : List InterviewSession) (h : sessions ≠ []) :
    (ProgressTrackingService.getProgressStatsOf sessions).strongestAreas.length = 2
    ∧ (ProgressTrackingService.getProgressStatsOf sessions).weakestAreas.length = 2
    ∧ (∀ a ∈ (ProgressTrackingService.getProgressStatsOf sessions).strongestAreas,
        a ∈ ["confidence", "clarity", "professionalism", "relevance"])
    ∧ (∀ a ∈ (ProgressTrackingService.getProgressStatsOf sessions).weakestAreas,
        a ∈ ["confidence", "clarity", "professionalism", "relevance"])
    ∧ (∀ a ∈ (ProgressTrackingService.getProgressStatsOf sessions).strongestAreas,
        a ∉ (ProgressTrackingService.getProgressStatsOf sessions).weakestAreas)
    ∧ (∀ p ∈ (ProgressTrackingService.sortedAreas sessions).take 2,
        ∀ q ∈ (ProgressTrackingService.sortedAreas sessions).drop 2, q.2 ≤ p.2) := by
  have hlen0 : ¬ sessions.length = 0 := by simpa [List.length_eq_zero] using h
  have hst : (ProgressTrackingService.getProgressStatsOf sessions).strongestAreas
      = ((ProgressTrackingService.sortedAreas sessions).take 2).map Prod.fst := by
    rw [ProgressTrackingService.getProgressStatsOf, if_neg hlen0]
  have hw4 : (ProgressTrackingService.sortedAreas sessions).length = 4 := by
    rw [ProgressTrackingService.sortedAreas,
      (List.mergeSort_perm _ _).length_eq]
    rfl
  have hwk : (ProgressTrackingService.getProgressStatsOf sessions).weakestAreas
      = ((ProgressTrackingService.sortedAreas sessions).drop 2).map Prod.fst := by
    rw [ProgressTrackingService.getProgressStatsOf, if_neg hlen0]
    show ((jsSliceNeg 2 (ProgressTrackingService.sortedAreas sessions)).map Prod.fst) = _
    rw [jsSliceNeg, hw4]
  have hperm : (((ProgressTrackingService.sortedAreas sessions)).map Prod.fst).Perm
      ["confidence", "clarity", "professionalism", "relevance"] := by
    have hp := (List.mergeSort_perm (ProgressTrackingService.avgMetricsList sessions)
      (fun a b => decide (b.2 ≤ a.2))).map Prod.fst
    simpa [ProgressTrackingService.sortedAreas,
      ProgressTrackingService.avgMetricsList] using hp
  have hnodup : (((ProgressTrackingService.sortedAreas sessions)).map Prod.fst).Nodup :=
    hperm.nodup_iff.mpr (by decide)
  have hsubt : (((ProgressTrackingService.sortedAreas sessions).take 2).map Prod.fst)
      ⊆ ((ProgressTrackingService.sortedAreas sessions)).map Prod.fst := by
    exact fun a ha => List.mem_map.mpr (by
      obtain ⟨p, hp, rfl⟩ := List.mem_map.mp ha
      exact ⟨p, List.take_subset _ _ hp, rfl⟩)
  have hsubd : (((ProgressTrackingService.sortedAreas sessions).drop 2).map Prod.fst)
      ⊆ ((ProgressTrackingService.sortedAreas sessions)).map Prod.fst := by
    exact fun a ha => List.mem_map.mpr (by
      obtain ⟨p, hp, rfl⟩ := List.mem_map.mp ha
      exact ⟨p, List.drop_subset _ _ hp, rfl⟩)
  have hsorted : List.Pairwise (fun a b : String × ℚ => b.2 ≤ a.2)
      (ProgressTrackingService.sortedAreas sessions) := by
    have hs := @List.sorted_mergeSort (String × ℚ)
      (fun a b => decide (b.2 ≤ a.2))
      (fun a b c hab hbc => by
        simp only [decide_eq_true_eq] at *
        exact le_trans hbc hab)
      (fun a b => by simpa using le_total b.2 a.2)
      (ProgressTrackingService.avgMetricsList sessions)
    rw [ProgressTrackingService.sortedAreas]
    exact hs.imp (fun hab => by simpa using hab)
  have hdom : ∀ p ∈ (ProgressTrackingService.sortedAreas sessions).take 2,
      ∀ q ∈ (ProgressTrackingService.sortedAreas sessions).drop 2, q.2 ≤ p.2 := by
    have hsplit := hsorted
    rw [← List.take_append_drop 2 (ProgressTrackingService.sortedAreas sessions)]
      at hsplit
    exact (List.pairwise_append.mp hsplit).2.2
  have hdisj : ∀ a ∈ (((ProgressTrackingService.sortedAreas sessions).take 2).map Prod.fst),
      a ∉ (((ProgressTrackingService.sortedAreas sessions).drop 2).map Prod.fst) := by
    have hd := List.disjoint_take_drop
      (l := ((ProgressTrackingService.sortedAreas sessions)).map Prod.fst)
      hnodup (le_refl 2)
    intro a ha hb
    rw [← List.map_take] at hd
    rw [← List.map_drop] at hd
    exact hd ha hb
  refine ⟨?_, ?_, ?_, ?_, ?_, hdom⟩
  · rw [hst]
    simp [hw4]
  · rw [hwk]
    simp [hw4]
  · rw [hst]
    exact fun a ha => hperm.mem_iff.mp (hsubt ha)
  · rw [hwk]
    exact fun a ha => hperm.mem_iff.mp (hsubd ha)
  · rw [hst, hwk]
    exact hdisj

/-- A concrete session for the C9 witness. -/
def c9Session : InterviewSession :=
  ⟨"", "", 0, "", 50, ⟨0, 0, 70, 60, 80, 90⟩, false, none⟩

/-- Witness for C9 on a concrete one-session log. -/
theorem c9_area_selection_witness :
    [c9Session] ≠ []
    ∧ ((ProgressTrackingService.getProgressStatsOf [c9Session]).strongestAreas.length = 2
      ∧ (ProgressTrackingService.getProgressStatsOf [c9Session]).weakestAreas.length = 2
      ∧ (∀ a ∈ (ProgressTrackingService.getProgressStatsOf [c9Session]).strongestAreas,
          a ∈ ["confidence", "clarity", "professionalism", "relevance"])
      ∧ (∀ a ∈ (ProgressTrackingService.getProgressStatsOf [c9Session]).weakestAreas,
          a ∈ ["confidence", "clarity", "professionalism", "relevance"])
      ∧ (∀ a ∈ (ProgressTrackingService.getProgressStatsOf [c9Session]).strongestAreas,
          a ∉ (ProgressTrackingService.getProgressStatsOf [c9Session]).weakestAreas)
      ∧ (∀ p ∈ (ProgressTrackingService.sortedAreas [c9Session]).take 2,
          ∀ q ∈ (ProgressTrackingService.sortedAreas [c9Session]).drop 2, q.2 ≤ p.2)) :=
  ⟨by decide, c9_area_selection [c9Session] (by decide)⟩
